import Mathlib

/-!
Verification development for the Authentication & Authorization subsystem of
the selfhosted-supabase-mcp server.  The definitions below are a shallow
embedding of the TypeScript sources:

  * `src/auth/jwt.ts`         — `JWTValidator`
  * `src/auth/session.ts`     — `SessionManager`
  * `src/auth/rbac.ts`        — `RBACManager`
  * `src/auth/middleware.ts`  — `AuthenticationMiddleware`, credential utils
  * `src/auth/audit.ts`       — `AuditLogger`
  * `src/auth/types.ts`       — shared data types

JavaScript `Map`/`Set`/objects are modelled as insertion-ordered association
lists, `Date`/timestamps as `Int` milliseconds, and thrown
`AuthenticationError`/`AuthorizationError`/`SessionError` values as
`Except AuthError`.  Stateful methods take the store as an argument and
return the updated store.  The base64url+JSON decoding step of
`JWTValidator.validateToken` (a trusted external library call) is abstracted
as a `parse` function argument; everything after it follows the source.
-/

/-- Association-list lookup, mirroring `Map.get` (first matching entry). -/
def alistLookup {α : Type} (k : String) : List (String × α) → Option α
  | [] => none
  | kv :: rest => if kv.1 = k then some kv.2 else alistLookup k rest

/-- Association-list update, mirroring `Map.set`: replaces the value in place
if the key is present (preserving insertion order), else appends. -/
def alistSet {α : Type} (k : String) (v : α) : List (String × α) → List (String × α)
  | [] => [(k, v)]
  | kv :: rest => if kv.1 = k then (k, v) :: rest else kv :: alistSet k v rest

/-- Association-list removal, mirroring `Map.delete` on a unique-key map. -/
def alistRemove {α : Type} (k : String) (l : List (String × α)) : List (String × α) :=
  l.filter (fun kv => kv.1 ≠ k)

/-- JavaScript `Set.add` on an insertion-ordered set of strings. -/
def setAdd (x : String) (l : List String) : List String :=
  if l.contains x then l else l ++ [x]

/-- JavaScript `Set.delete` on an insertion-ordered set of strings. -/
def setDelete (x : String) (l : List String) : List String :=
  l.filter (fun y => y ≠ x)

/-- Splits a character list at every occurrence of `sep`, mirroring
JavaScript `String.split` with a single-character separator. -/
def splitOnChar (sep : Char) : List Char → List (List Char)
  | [] => [[]]
  | c :: rest =>
    let r := splitOnChar sep rest
    if c = sep then [] :: r
    else
      match r with
      | [] => [[c]]
      | g :: gs => (c :: g) :: gs

/-- Whether `needle` occurs as a contiguous segment of the list, mirroring
JavaScript `String.includes`. -/
def containsSeg (needle : List Char) : List Char → Bool
  | [] => needle.isEmpty
  | c :: rest => needle.isPrefixOf (c :: rest) || containsSeg needle rest

/-- The whitespace class of the JavaScript regex `\s` (ASCII part). -/
def isSpaceChar (c : Char) : Bool :=
  c = ' ' || c = '\t' || c = '\n' || c = '\r' || c = Char.ofNat 11 || c = Char.ofNat 12

/-- The word-character class of the JavaScript regex `\w`, used for `\b`. -/
def isWordChar (c : Char) : Bool :=
  c.isAlpha || c.isDigit || c = '_'

/-- Case-insensitively consumes the literal word `w` from the front of `s`,
returning the remainder.  `w` is given in lower case. -/
def dropWordCI : List Char → List Char → Option (List Char)
  | [], s => some s
  | _, [] => none
  | c :: w, d :: s => if d.toLower = c then dropWordCI w s else none

/-- Matches the regex fragment `w₁\s+w₂\s+…wₙ\s+` (each word of `ws`
followed by at least one whitespace character) at the head of `s`. -/
def matchWordsFrom : List String → List Char → Bool
  | [], _ => true
  | w :: ws, s =>
    match dropWordCI w.data s with
    | none => false
    | some rest =>
      match rest with
      | [] => false
      | c :: rest2 => isSpaceChar c && matchWordsFrom ws (rest2.dropWhile isSpaceChar)

/-- Searches `s` for a match of `\bw₁\s+…wₙ\s+` anywhere, tracking the
previous character to decide the word boundary `\b`. -/
def searchWords (ws : List String) : Option Char → List Char → Bool
  | _, [] => false
  | prev, c :: rest =>
    ((match prev with
      | none => true
      | some p => !isWordChar p) && matchWordsFrom ws (c :: rest))
    || searchWords ws (some c) rest

/-- JavaScript `String.trim` on a character list (ASCII whitespace). -/
def trimChars (l : List Char) : List Char :=
  ((l.dropWhile isSpaceChar).reverse.dropWhile isSpaceChar).reverse

/-! ### Data model (src/auth/types.ts) -/

/-- A JSON-ish condition value used in permission condition maps. -/
inductive CondValue
  | cbool (b : Bool)
  | cstr (s : String)
  | cnum (n : Int)
deriving DecidableEq, Repr

/-- `Permission` from types.ts: action/resource with an optional condition
map.  A JavaScript object is modelled as an association list; `none` is an
absent (undefined) map. -/
structure Permission where
  action : String
  resource : String
  conditions : Option (List (String × CondValue)) := none
deriving DecidableEq, Repr

/-- `Role` from types.ts. -/
structure Role where
  name : String
  description : String
  permissions : List Permission
  isSystemRole : Bool
deriving DecidableEq, Repr

/-- `AuthContext` from types.ts.  `tokenExpires` is in milliseconds. -/
structure AuthContext where
  userId : Option String := none
  sessionId : String
  roles : List String
  permissions : List String
  isAuthenticated : Bool
  tokenAudience : Option String := none
  tokenIssuer : Option String := none
  tokenSubject : Option String := none
  tokenExpires : Option Int := none
deriving DecidableEq, Repr

/-- `JWTPayload` from types.ts.  Claims that may be absent from the decoded
JSON are `Option`; JavaScript falsiness of `""` and `0` is handled at the
use sites. -/
structure JWTPayload where
  sub : Option String := none
  aud : Option String := none
  iss : Option String := none
  exp : Option Int := none
  iat : Option Int := none
  jti : Option String := none
  role : Option String := none
  roles : Option (List String) := none
  permissions : Option (List String) := none
deriving DecidableEq, Repr

/-- `SessionData` from types.ts; times are `Int` milliseconds. -/
structure SessionData where
  sessionId : String
  userId : String
  createdAt : Int
  lastAccessedAt : Int
  expiresAt : Int
  userAgent : Option String := none
  ipAddress : Option String := none
  isActive : Bool
deriving DecidableEq, Repr

/-- `AuthConfig` from types.ts. -/
structure AuthConfig where
  jwtSecret : String
  sessionTimeout : Int
  maxConcurrentSessions : Nat
  enableAuditLogging : Bool
  allowedAudiences : List String
  allowedIssuers : List String
  requireHumanApproval : List String
deriving DecidableEq, Repr

/-- A thrown `AuthenticationError` / `AuthorizationError` / `SessionError`:
all three carry a message and a machine-readable code. -/
structure AuthError where
  message : String
  code : String
deriving DecidableEq, Repr

/-- JavaScript falsiness of an optional string claim (`undefined` or `""`). -/
def strFalsy : Option String → Bool
  | none => true
  | some s => s.isEmpty

/-- JavaScript falsiness of an optional numeric claim (`undefined` or `0`). -/
def numFalsy : Option Int → Bool
  | none => true
  | some n => n == 0

/-! ### JWT validator (src/auth/jwt.ts) -/

/-- `JWTValidator.validatePayload`: structural claim checks, in source
order, each with its distinct failure code.  `now` is in seconds. -/
def validatePayload (cfg : AuthConfig) (now : Int) (p : JWTPayload) : Except AuthError Unit :=
  if strFalsy p.sub then
    .error ⟨"Token missing subject (sub) claim", "AUTH_MISSING_SUB"⟩
  else if strFalsy p.aud then
    .error ⟨"Token missing audience (aud) claim", "AUTH_MISSING_AUD"⟩
  else if strFalsy p.iss then
    .error ⟨"Token missing issuer (iss) claim", "AUTH_MISSING_ISS"⟩
  else if !numFalsy p.exp && decide (p.exp.getD 0 < now) then
    .error ⟨"Token has expired", "AUTH_TOKEN_EXPIRED"⟩
  else if !numFalsy p.iat && decide (now + 60 < p.iat.getD 0) then
    .error ⟨"Token not yet valid", "AUTH_TOKEN_NOT_YET_VALID"⟩
  else if !cfg.allowedAudiences.isEmpty && !cfg.allowedAudiences.contains (p.aud.getD "") then
    .error ⟨"Invalid audience: " ++ p.aud.getD "", "AUTH_INVALID_AUDIENCE"⟩
  else if !cfg.allowedIssuers.isEmpty && !cfg.allowedIssuers.contains (p.iss.getD "") then
    .error ⟨"Invalid issuer: " ++ p.iss.getD "", "AUTH_INVALID_ISSUER"⟩
  else
    .ok ()

/-- `JWTValidator.validateToken`.  The base64url+JSON decode of the payload
segment is abstracted as `parse`; `parse token = none` models a decode/parse
exception.  Any exception inside the `try` block — including every
`validatePayload` failure — is re-thrown as `AUTH_VALIDATION_FAILED` with a
message that wraps the inner message (the inner code is not preserved). -/
def validateToken (cfg : AuthConfig) (parse : String → Option JWTPayload)
    (now : Int) (token : String) : Except AuthError JWTPayload :=
  if token = "" then
    .error ⟨"No token provided", "AUTH_NO_TOKEN"⟩
  else if (splitOnChar '.' token.data).length ≠ 3 then
    .error ⟨"Invalid JWT format", "AUTH_INVALID_FORMAT"⟩
  else
    match parse token with
    | none => .error ⟨"Token validation failed: Unknown error", "AUTH_VALIDATION_FAILED"⟩
    | some payload =>
      match validatePayload cfg now payload with
      | .ok _ => .ok payload
      | .error e =>
        .error ⟨"Token validation failed: " ++ e.message, "AUTH_VALIDATION_FAILED"⟩

/-- First-occurrence deduplication, mirroring `[...new Set(roles)]`. -/
def dedupFirstAux : List String → List String → List String
  | [], _ => []
  | x :: xs, seen =>
    if seen.contains x then dedupFirstAux xs seen
    else x :: dedupFirstAux xs (x :: seen)

/-- `JWTValidator.extractRoles`: merge the singular `role` claim and the
plural `roles` claim, default to `authenticated`, and de-duplicate. -/
def extractRoles (p : JWTPayload) : List String :=
  let fromRole : List String :=
    match p.role with
    | some r => if r.isEmpty then [] else [r]
    | none => []
  let merged := fromRole ++ p.roles.getD []
  let merged := if merged.isEmpty then ["authenticated"] else merged
  dedupFirstAux merged []

/-- `JWTValidator.extractPermissions`: the explicit `permissions` claim,
passed through unchanged (empty if absent). -/
def extractPermissions (p : JWTPayload) : List String :=
  p.permissions.getD []

/-! ### RBAC manager (src/auth/rbac.ts) -/

/-- The seeded `anon` system role. -/
def anonRole : Role :=
  { name := "anon"
    description := "Anonymous user with minimal permissions"
    isSystemRole := true
    permissions := [⟨"read", "public_data", none⟩] }

/-- The seeded `authenticated` system role. -/
def authenticatedRole : Role :=
  { name := "authenticated"
    description := "Authenticated user with basic permissions"
    isSystemRole := true
    permissions :=
      [⟨"read", "public_data", none⟩,
       ⟨"read", "user_data", some [("ownedByUser", CondValue.cbool true)]⟩,
       ⟨"read", "database_stats", none⟩,
       ⟨"read", "project_url", none⟩] }

/-- The seeded `service_role` system role. -/
def serviceRole : Role :=
  { name := "service_role"
    description := "Service role with elevated permissions"
    isSystemRole := true
    permissions :=
      [⟨"read", "*", none⟩,
       ⟨"write", "auth_users", none⟩,
       ⟨"execute", "sql", none⟩,
       ⟨"read", "migrations", none⟩,
       ⟨"write", "migrations", none⟩,
       ⟨"read", "database_connections", none⟩,
       ⟨"read", "database_stats", none⟩,
       ⟨"execute", "rebuild_hooks", none⟩,
       ⟨"read", "storage_buckets", none⟩,
       ⟨"read", "storage_objects", none⟩,
       ⟨"read", "realtime_publications", none⟩] }

/-- The seeded `admin` system role (wildcard action and resource). -/
def adminRole : Role :=
  { name := "admin"
    description := "Administrator with full permissions"
    isSystemRole := true
    permissions := [⟨"*", "*", none⟩] }

/-- The seeded `operator` system role; its `execute sql` permission carries
the condition map `{readOnly: true}`. -/
def operatorRole : Role :=
  { name := "operator"
    description := "Operator with database and migration permissions"
    isSystemRole := true
    permissions :=
      [⟨"read", "database_stats", none⟩,
       ⟨"read", "database_connections", none⟩,
       ⟨"read", "migrations", none⟩,
       ⟨"write", "migrations", none⟩,
       ⟨"execute", "sql", some [("readOnly", CondValue.cbool true)]⟩,
       ⟨"read", "extensions", none⟩,
       ⟨"read", "tables", none⟩,
       ⟨"execute", "generate_types", none⟩] }

/-- `RBACManager.getRole` for the manager as constructed (the five system
roles seeded by `initializeSystemRoles`). -/
def getRole (n : String) : Option Role :=
  if n = "anon" then some anonRole
  else if n = "authenticated" then some authenticatedRole
  else if n = "service_role" then some serviceRole
  else if n = "admin" then some adminRole
  else if n = "operator" then some operatorRole
  else none

/-- `RBACManager.matchesPermission`: wildcard or exact action/resource; the
condition map is compared entry-wise only when BOTH the permission carries a
condition map AND a conditions map was supplied at check time (the
JavaScript guard `permission.conditions && conditions`). -/
def matchesPermission (p : Permission) (action resource : String)
    (conditions : Option (List (String × CondValue))) : Bool :=
  if p.action != "*" && p.action != action then false
  else if p.resource != "*" && p.resource != resource then false
  else
    match p.conditions, conditions with
    | some pc, some c => pc.all (fun kv => decide (alistLookup kv.1 c = some kv.2))
    | _, _ => true

/-- `RBACManager.parsePermissionString` for `"action:resource"` strings. -/
def parsePermissionString (s : String) : Option Permission :=
  match splitOnChar ':' s.data with
  | [a, r] => some ⟨String.mk a, String.mk r, none⟩
  | _ => none

/-- `RBACManager.hasPermission`. -/
def hasPermission (ctx : AuthContext) (action resource : String)
    (conditions : Option (List (String × CondValue))) : Bool :=
  if !ctx.isAuthenticated && !ctx.roles.contains "anon" then false
  else
    (ctx.roles.any fun rn =>
      match getRole rn with
      | none => false
      | some role => role.permissions.any fun p =>
          matchesPermission p action resource conditions)
    || (ctx.permissions.any fun ps =>
      match parsePermissionString ps with
      | none => false
      | some p => matchesPermission p action resource conditions)

/-- `RBACManager.enforcePermission`: throws `AUTH_ACCESS_DENIED` on denial. -/
def enforcePermission (ctx : AuthContext) (action resource : String)
    (conditions : Option (List (String × CondValue))) : Except AuthError Unit :=
  if hasPermission ctx action resource conditions then .ok ()
  else .error ⟨"Access denied: " ++ action ++ " on " ++ resource, "AUTH_ACCESS_DENIED"⟩

/-- The static tool-to-permission table of `RBACManager.getToolPermissions`. -/
def toolPermissionsTable : List (String × Permission) :=
  [("list_tables", ⟨"read", "tables", none⟩),
   ("list_extensions", ⟨"read", "extensions", none⟩),
   ("list_migrations", ⟨"read", "migrations", none⟩),
   ("apply_migration", ⟨"write", "migrations", none⟩),
   ("execute_sql", ⟨"execute", "sql", none⟩),
   ("get_database_connections", ⟨"read", "database_connections", none⟩),
   ("get_database_stats", ⟨"read", "database_stats", none⟩),
   ("get_project_url", ⟨"read", "project_url", none⟩),
   ("get_anon_key", ⟨"read", "credentials", none⟩),
   ("get_service_key", ⟨"read", "credentials", none⟩),
   ("generate_typescript_types", ⟨"execute", "generate_types", none⟩),
   ("rebuild_hooks", ⟨"execute", "rebuild_hooks", none⟩),
   ("verify_jwt_secret", ⟨"read", "credentials", none⟩),
   ("list_auth_users", ⟨"read", "auth_users", none⟩),
   ("get_auth_user", ⟨"read", "auth_users", none⟩),
   ("delete_auth_user", ⟨"write", "auth_users", none⟩),
   ("create_auth_user", ⟨"write", "auth_users", none⟩),
   ("update_auth_user", ⟨"write", "auth_users", none⟩),
   ("list_storage_buckets", ⟨"read", "storage_buckets", none⟩),
   ("list_storage_objects", ⟨"read", "storage_objects", none⟩),
   ("list_realtime_publications", ⟨"read", "realtime_publications", none⟩)]

/-- `RBACManager.getToolPermissions`: table lookup, defaulting to
`execute <toolName>`. -/
def getToolPermissions (toolName : String) : Permission :=
  (alistLookup toolName toolPermissionsTable).getD ⟨"execute", toolName, none⟩

/-- The hardcoded human-approval tool list of
`RBACManager.requiresHumanApproval` (note: not the configured
`requireHumanApproval` list of `AuthConfig`). -/
def humanApprovalTools : List String :=
  ["delete_auth_user", "apply_migration", "execute_sql"]

/-- `RBACManager.requiresHumanApproval`: admins bypass; otherwise membership
in the hardcoded list. -/
def requiresHumanApproval (toolName : String) (ctx : AuthContext) : Bool :=
  if ctx.roles.contains "admin" then false
  else humanApprovalTools.contains toolName

/-! ### Session manager (src/auth/session.ts) -/

/-- The in-memory state of `SessionManager`: the primary session map and the
per-user session-id index. -/
structure SessionStore where
  sessions : List (String × SessionData)
  userSessions : List (String × List String)
deriving DecidableEq, Repr

/-- A `SessionManager` with no sessions. -/
def emptyStore : SessionStore := ⟨[], []⟩

/-- The `SESSION_LIMIT_EXCEEDED` message of `createSession`. -/
def sessionLimitMessage (cfg : AuthConfig) : String :=
  "Maximum concurrent sessions (" ++ toString cfg.maxConcurrentSessions ++ ") exceeded"

/-- `SessionManager.createSession`.  The random session id produced by
`generateSecureSessionId` is passed in as `sid`; `now` is in milliseconds.
On the thrown `SESSION_LIMIT_EXCEEDED` the store is unchanged. -/
def createSession (cfg : AuthConfig) (now : Int) (sid : String) (st : SessionStore)
    (userId : String) (ua ip : Option String) : Except AuthError (SessionData × SessionStore) :=
  let existing := (alistLookup userId st.userSessions).getD []
  if cfg.maxConcurrentSessions ≤ existing.length then
    .error ⟨sessionLimitMessage cfg, "SESSION_LIMIT_EXCEEDED"⟩
  else
    let sd : SessionData :=
      { sessionId := sid, userId := userId, createdAt := now, lastAccessedAt := now
        expiresAt := now + cfg.sessionTimeout, userAgent := ua, ipAddress := ip
        isActive := true }
    .ok (sd, ⟨alistSet sid sd st.sessions, alistSet userId (setAdd sid existing) st.userSessions⟩)

/-- `SessionManager.destroySession`: removes the id from the per-user index
(dropping the user's index entry when it empties) and from the session map. -/
def destroySession (st : SessionStore) (sid : String) : SessionStore :=
  let userSessions' :=
    match alistLookup sid st.sessions with
    | none => st.userSessions
    | some s =>
      match alistLookup s.userId st.userSessions with
      | none => st.userSessions
      | some ids =>
        let ids' := setDelete sid ids
        if ids'.isEmpty then alistRemove s.userId st.userSessions
        else alistSet s.userId ids' st.userSessions
  ⟨alistRemove sid st.sessions, userSessions'⟩

/-- `SessionManager.validateSession`: none for an unknown id; an expired or
inactive session is destroyed and none is returned; otherwise last-access is
refreshed and expiry slides to `now + sessionTimeout`. -/
def validateSession (cfg : AuthConfig) (now : Int) (st : SessionStore)
    (sid : String) : Option SessionData × SessionStore :=
  match alistLookup sid st.sessions with
  | none => (none, st)
  | some s =>
    if s.expiresAt < now || !s.isActive then
      (none, destroySession st sid)
    else
      let s' := { s with lastAccessedAt := now, expiresAt := now + cfg.sessionTimeout }
      (some s', ⟨alistSet sid s' st.sessions, st.userSessions⟩)

/-- `SessionManager.extendSession`: false for an unknown or inactive
session; otherwise expiry and last-access are reset — expiry itself is never
inspected. -/
def extendSession (cfg : AuthConfig) (now : Int) (st : SessionStore)
    (sid : String) : Bool × SessionStore :=
  match alistLookup sid st.sessions with
  | none => (false, st)
  | some s =>
    if !s.isActive then (false, st)
    else
      let s' := { s with expiresAt := now + cfg.sessionTimeout, lastAccessedAt := now }
      (true, ⟨alistSet sid s' st.sessions, st.userSessions⟩)

/-- Validates each id of a snapshot of a user's session-id set in order,
threading the store, collecting the sessions that are still alive; the loop
body of `SessionManager.getUserSessions`. -/
def validateSessionsAcc (cfg : AuthConfig) (now : Int) :
    List String → SessionStore → List SessionData × SessionStore
  | [], st => ([], st)
  | sid :: rest, st =>
    match validateSession cfg now st sid with
    | (some s, st') =>
      let (l, st'') := validateSessionsAcc cfg now rest st'
      (s :: l, st'')
    | (none, st') => validateSessionsAcc cfg now rest st'

/-- `SessionManager.getUserSessions`: all sessions of a user still alive,
lazily expiring stale ones via `validateSession`. -/
def getUserSessions (cfg : AuthConfig) (now : Int) (st : SessionStore)
    (userId : String) : List SessionData × SessionStore :=
  match alistLookup userId st.userSessions with
  | none => ([], st)
  | some ids => validateSessionsAcc cfg now ids st

/-! ### Authentication middleware (src/auth/middleware.ts) -/

/-- The `toolArgs` record of the `execute_sql` tool: its `query` field may
be absent. -/
structure SqlToolArgs where
  query : Option String := none
deriving DecidableEq, Repr

/-- The eight destructive-statement regex patterns of
`validateSqlExecution`, each of the form `\bw₁\s+…wₙ\s+` (case-insensitive),
given as lower-case word sequences. -/
def dangerousPatterns : List (List String) :=
  [["drop"], ["delete", "from"], ["truncate"], ["alter"],
   ["grant"], ["revoke"], ["create", "user"], ["drop", "user"]]

/-- Whether any destructive pattern matches anywhere in the query. -/
def isDangerousSql (q : String) : Bool :=
  dangerousPatterns.any fun ws => searchWords ws none q.data

/-- The read-only check `/^\s*SELECT\s+/i.test(query.trim())`. -/
def isSelectQuery (q : String) : Bool :=
  matchWordsFrom ["select"] ((trimChars q.data).dropWhile isSpaceChar)

/-- `AuthenticationMiddleware.validateSqlExecution`: missing query is
rejected; a destructive statement from a context without `admin` or
`service_role` is rejected with `AUTH_DANGEROUS_SQL`; such a context is
further restricted to statements whose leading keyword is `SELECT`
(`AUTH_SELECT_ONLY`). -/
def validateSqlExecution (ctx : AuthContext) (args : SqlToolArgs) : Except AuthError Unit :=
  match args.query with
  | none => .error ⟨"SQL query is required", "AUTH_MISSING_QUERY"⟩
  | some q =>
    if q.length = 0 then .error ⟨"SQL query is required", "AUTH_MISSING_QUERY"⟩
    else if isDangerousSql q && (!ctx.roles.contains "admin" && !ctx.roles.contains "service_role") then
      .error ⟨"Dangerous SQL operations require admin or service_role privileges", "AUTH_DANGEROUS_SQL"⟩
    else if (!ctx.roles.contains "admin" && !ctx.roles.contains "service_role") && !isSelectQuery q then
      .error ⟨"Non-admin users can only execute SELECT statements", "AUTH_SELECT_ONLY"⟩
    else
      .ok ()

/-- `AuthenticationMiddleware.validateToolAccess`: permission enforcement,
then the human-approval gate, then (for `execute_sql` with arguments) the
SQL content guard. -/
def validateToolAccess (ctx : AuthContext) (toolName : String)
    (toolArgs : Option SqlToolArgs) : Except AuthError Unit :=
  let rp := getToolPermissions toolName
  match enforcePermission ctx rp.action rp.resource rp.conditions with
  | .error e => .error e
  | .ok _ =>
    if requiresHumanApproval toolName ctx then
      .error ⟨"Tool " ++ toolName ++ " requires human approval for non-admin users",
              "AUTH_HUMAN_APPROVAL_REQUIRED"⟩
    else
      match toolName == "execute_sql", toolArgs with
      | true, some args => validateSqlExecution ctx args
      | _, _ => .ok ()

/-- `AuthenticationMiddleware.createOrValidateSession`: try to create a
session; if creation throws, fall back to the user's first still-valid
session (lazily refreshed by `getUserSessions`), else rethrow. -/
def createOrValidateSession (cfg : AuthConfig) (now : Int) (sid : String)
    (st : SessionStore) (sub : String) (ua ip : Option String) :
    Except AuthError String × SessionStore :=
  match createSession cfg now sid st sub ua ip with
  | .ok (sd, st') => (.ok sd.sessionId, st')
  | .error e =>
    match getUserSessions cfg now st sub with
    | (s :: _, st') => (.ok s.sessionId, st')
    | ([], st') => (.error e, st')

/-- `AuthenticationMiddleware.authenticateToken`: JWT validation, role and
permission extraction, session establishment, context assembly.  `now` is
used both as the JWT clock (seconds in the source) and the session clock
(milliseconds); the two clocks never interact in any property below.  On
any failure the error propagates unchanged. -/
def authenticateToken (cfg : AuthConfig) (parse : String → Option JWTPayload)
    (now : Int) (newSid : String) (st : SessionStore) (token : String)
    (ua ip : Option String) : Except AuthError AuthContext × SessionStore :=
  match validateToken cfg parse now token with
  | .error e => (.error e, st)
  | .ok payload =>
    match createOrValidateSession cfg now newSid st (payload.sub.getD "") ua ip with
    | (.error e, st') => (.error e, st')
    | (.ok sid, st') =>
      (.ok { userId := payload.sub
             sessionId := sid
             roles := extractRoles payload
             permissions := extractPermissions payload
             isAuthenticated := true
             tokenAudience := payload.aud
             tokenIssuer := payload.iss
             tokenSubject := payload.sub
             tokenExpires := if numFalsy payload.exp then none else some (payload.exp.getD 0 * 1000) },
       st')

/-- `CredentialMaskingOptions` from types.ts. -/
structure CredentialMaskingOptions where
  maskingCharacter : String
  visibleCharacters : Nat
  enableMasking : Bool
deriving DecidableEq, Repr

/-- The `DEFAULT_MASKING_OPTIONS` of credentials.ts. -/
def defaultMaskingOptions : CredentialMaskingOptions :=
  { maskingCharacter := "*", visibleCharacters := 4, enableMasking := true }

/-- JavaScript `String.repeat` on a character list. -/
def repeatChars (s : List Char) (n : Nat) : List Char :=
  (List.replicate n s).flatten

/-- The character-list core of `maskCredential` from credentials.ts. -/
def maskCredentialChars (opts : CredentialMaskingOptions) (c : List Char) : List Char :=
  if !opts.enableMasking || c.isEmpty then c
  else if c.length ≤ opts.visibleCharacters then
    c.take 1 ++ repeatChars opts.maskingCharacter.data (c.length - 1)
  else
    c.take opts.visibleCharacters
      ++ repeatChars opts.maskingCharacter.data (c.length - 2 * opts.visibleCharacters)
      ++ c.drop (c.length - opts.visibleCharacters)

/-- `maskCredential` from credentials.ts: masking disabled or empty input is
returned unchanged; a credential no longer than `visibleCharacters` keeps
only its first character; otherwise the first and last `visibleCharacters`
characters stay visible around a masked middle of length
`max(0, length - 2*visibleCharacters)`. -/
def maskCredential (credential : String) (opts : CredentialMaskingOptions) : String :=
  String.mk (maskCredentialChars opts credential.data)

/-! ### Audit logger (src/auth/audit.ts) -/

/-- A JSON-ish value of a detail map entry. -/
inductive DetailValue
  | vstr (s : String)
  | vnum (n : Int)
  | vbool (b : Bool)
deriving DecidableEq, Repr

/-- Outcome of an audited decision. -/
inductive AuditOutcome
  | success
  | failure
  | error
deriving DecidableEq, Repr

/-- `AuditEvent` from types.ts. -/
structure AuditEvent where
  eventId : String
  timestamp : Int
  userId : Option String := none
  sessionId : Option String := none
  action : String
  resource : String
  outcome : AuditOutcome
  details : Option (List (String × DetailValue)) := none
  ipAddress : Option String := none
  userAgent : Option String := none
deriving DecidableEq, Repr

/-- The in-memory state of `AuditLogger`. -/
structure AuditLogger where
  events : List AuditEvent
  maxEvents : Nat
  enabled : Bool
deriving DecidableEq, Repr

/-- The sensitive-key substrings of `AuditLogger.sanitizeDetails`. -/
def sensitiveKeys : List String :=
  ["password", "secret", "key", "token", "credential"]

/-- Whether a detail key case-insensitively contains a sensitive substring. -/
def isSensitiveKey (k : String) : Bool :=
  sensitiveKeys.any fun s => containsSeg s.data (k.data.map Char.toLower)

/-- The redaction marker, preserving only the original value's length. -/
def redactionMarker (n : Nat) : String :=
  "[REDACTED:" ++ toString n ++ "chars]"

/-- One entry of the sanitization loop: a string value under a sensitive key
is replaced by the redaction marker; anything else is copied unchanged. -/
def sanitizeEntry (kv : String × DetailValue) : String × DetailValue :=
  match kv with
  | (k, DetailValue.vstr s) =>
    if isSensitiveKey k then (k, DetailValue.vstr (redactionMarker s.length))
    else (k, DetailValue.vstr s)
  | (k, v) => (k, v)

/-- `AuditLogger.sanitizeDetails`: absent details stay absent; otherwise
each entry is sanitized. -/
def sanitizeDetails : Option (List (String × DetailValue)) → Option (List (String × DetailValue))
  | none => none
  | some d => some (d.map sanitizeEntry)

/-- `AuditLogger.addEvent`: append, then rotate by dropping the oldest
entries once the log exceeds `maxEvents` (`events.slice(-maxEvents)`). -/
def addEvent (st : AuditLogger) (e : AuditEvent) : AuditLogger :=
  let evs := st.events ++ [e]
  if st.maxEvents < evs.length then
    { st with events := evs.drop (evs.length - st.maxEvents) }
  else
    { st with events := evs }

/-- `AuditLogger.logAuthEvent`.  The generated event id and the timestamp
are passed in (`eid`, `now`). -/
def logAuthEvent (st : AuditLogger) (eid : String) (now : Int) (action : String)
    (outcome : AuditOutcome) (ctx : Option AuthContext)
    (details : Option (List (String × DetailValue))) (ip ua : Option String) : AuditLogger :=
  if !st.enabled then st
  else addEvent st
    { eventId := eid, timestamp := now, userId := ctx.bind (·.userId)
      sessionId := ctx.map (·.sessionId), action := action, resource := "authentication"
      outcome := outcome, details := sanitizeDetails details, ipAddress := ip, userAgent := ua }

/-- `AuditLogger.logAuthzEvent`. -/
def logAuthzEvent (st : AuditLogger) (eid : String) (now : Int) (action resource : String)
    (outcome : AuditOutcome) (ctx : AuthContext)
    (details : Option (List (String × DetailValue))) (ip ua : Option String) : AuditLogger :=
  if !st.enabled then st
  else addEvent st
    { eventId := eid, timestamp := now, userId := ctx.userId
      sessionId := some ctx.sessionId, action := action, resource := resource
      outcome := outcome, details := sanitizeDetails details, ipAddress := ip, userAgent := ua }

/-- `AuditLogger.logToolEvent`. -/
def logToolEvent (st : AuditLogger) (eid : String) (now : Int) (toolName : String)
    (outcome : AuditOutcome) (ctx : AuthContext)
    (details : Option (List (String × DetailValue))) (ip ua : Option String) : AuditLogger :=
  if !st.enabled then st
  else addEvent st
    { eventId := eid, timestamp := now, userId := ctx.userId
      sessionId := some ctx.sessionId, action := "tool_execution", resource := toolName
      outcome := outcome, details := sanitizeDetails details, ipAddress := ip, userAgent := ua }

/-- `AuditLogger.logSessionEvent`. -/
def logSessionEvent (st : AuditLogger) (eid : String) (now : Int) (action : String)
    (outcome : AuditOutcome) (sessionId : String) (userId : Option String)
    (details : Option (List (String × DetailValue))) (ip ua : Option String) : AuditLogger :=
  if !st.enabled then st
  else addEvent st
    { eventId := eid, timestamp := now, userId := userId
      sessionId := some sessionId, action := action, resource := "session"
      outcome := outcome, details := sanitizeDetails details, ipAddress := ip, userAgent := ua }

/-! ### Concrete instances used by the claim theorems below -/

/-- The concrete payload used by the C9 witness: `exp = 0`, all other
claims valid. -/
def zeroExpPayload : JWTPayload :=
  { sub := some "u1", aud := some "svc", iss := some "issuer", exp := some 0, iat := some 0 }

/-- The concrete payload used by the C2 counterexample and witness: no
`sub` claim, everything else present. -/
def noSubPayload : JWTPayload :=
  { aud := some "svc", iss := some "issuer", exp := some 0, iat := some 0 }

/-- The payload of the C1 end-to-end token: subject `u1`, audience and
issuer in the allow-lists, future expiry, roles `["operator"]`. -/
def operatorPayload : JWTPayload :=
  { sub := some "u1", aud := some "svc", iss := some "issuer",
    exp := some 9999999999, iat := some 0, roles := some ["operator"] }

/-- The context produced by authenticating the C1 token. -/
def operatorCtx : AuthContext :=
  { userId := some "u1", sessionId := "sid0", roles := ["operator"], permissions := [],
    isAuthenticated := true, tokenAudience := some "svc", tokenIssuer := some "issuer",
    tokenSubject := some "u1", tokenExpires := some 9999999999000 }

/-- The non-privileged context used by the C4 counterexample and witness. -/
def authenticatedCtx : AuthContext :=
  { sessionId := "s1", roles := ["authenticated"], permissions := [], isAuthenticated := true }

/-- Scenario driver for C6: create a session for `userId` with each fresh
id in order (no destruction in between), stopping at the first failure. -/
def createMany (cfg : AuthConfig) (now : Int) (userId : String) :
    List String → SessionStore → Except AuthError SessionStore
  | [], st => .ok st
  | sid :: rest, st =>
    match createSession cfg now sid st userId none none with
    | .error e => .error e
    | .ok (_, st') => createMany cfg now userId rest st'

/-! ### Helper lemmas -/

theorem alistLookup_set_self {α : Type} (k : String) (v : α) (l : List (String × α)) :
    alistLookup k (alistSet k v l) = some v := by
  induction l with
  | nil => simp [alistSet, alistLookup]
  | cons kv rest ih =>
    by_cases h : kv.1 = k <;> simp [alistSet, alistLookup, h, ih]

theorem alistLookup_set_ne {α : Type} (k k' : String) (v : α) (l : List (String × α))
    (h : k' ≠ k) : alistLookup k' (alistSet k v l) = alistLookup k' l := by
  induction l with
  | nil => simp [alistSet, alistLookup, Ne.symm h]
  | cons kv rest ih =>
    obtain ⟨a, b⟩ := kv
    by_cases hk : a = k
    · subst hk
      simp [alistSet, alistLookup, Ne.symm h]
    · simp [alistSet, alistLookup, hk, ih]

theorem alistLookup_remove_self {α : Type} (k : String) (l : List (String × α)) :
    alistLookup k (alistRemove k l) = none := by
  unfold alistRemove
  induction l with
  | nil => rfl
  | cons kv rest ih =>
    rw [List.filter_cons]
    by_cases h : kv.1 = k
    · simpa [h] using ih
    · simpa [alistLookup, h] using ih

/-! ### Claim C10 — maskCredential on lengths between visible and 2·visible -/

/-- C10: for every credential whose length L satisfies
`visibleCharacters < L ≤ 2 * visibleCharacters` (lengths 5 through 8 with
the default of 4), `maskCredential` returns the visible prefix followed
directly by the visible suffix: the masked middle is empty, prefix and
suffix overlap or abut (`L - visible ≤ visible`), and every character of
the credential appears in the output. -/
theorem c10_short_credentials_fully_revealed (opts : CredentialMaskingOptions) (c : String)
    (hmask : opts.enableMasking = true)
    (h1 : opts.visibleCharacters < c.length)
    (h2 : c.length ≤ 2 * opts.visibleCharacters) :
    maskCredential c opts =
      String.mk (c.data.take opts.visibleCharacters
        ++ c.data.drop (c.data.length - opts.visibleCharacters))
    ∧ c.data.length - opts.visibleCharacters ≤ opts.visibleCharacters
    ∧ ∀ x ∈ c.data, x ∈ (maskCredential c opts).data := by
  have hlen : c.length = c.data.length := rfl
  rw [hlen] at h1 h2
  have hne : c.data.isEmpty = false := by
    rcases hd : c.data with _ | ⟨a, l⟩
    · rw [hd] at h1; simp at h1
    · rfl
  have h0 : c.data.length - 2 * opts.visibleCharacters = 0 := by omega
  have hmain : maskCredentialChars opts c.data =
      c.data.take opts.visibleCharacters
        ++ c.data.drop (c.data.length - opts.visibleCharacters) := by
    rw [maskCredentialChars, hmask, hne]
    simp only [Bool.not_true, Bool.or_false, if_neg (Bool.false_ne_true)]
    rw [if_neg (Nat.not_le.mpr h1), h0]
    simp [repeatChars]
  refine ⟨congrArg String.mk hmain, by omega, ?_⟩
  intro x hx
  show x ∈ maskCredentialChars opts c.data
  rw [hmain]
  rw [← List.take_append_drop (c.data.length - opts.visibleCharacters) c.data] at hx
  rcases List.mem_append.mp hx with hx' | hx'
  · refine List.mem_append.mpr (Or.inl ?_)
    have htt : c.data.take (c.data.length - opts.visibleCharacters) =
        (c.data.take opts.visibleCharacters).take (c.data.length - opts.visibleCharacters) := by
      rw [List.take_take, Nat.min_eq_left (by omega)]
    rw [htt] at hx'
    exact ((c.data.take opts.visibleCharacters).take_sublist _).mem hx'
  · exact List.mem_append.mpr (Or.inr hx')

/-- C10 witness: the theorem applied to the credential `"abcdef"` (length 6)
with the default options; every character is revealed. -/
theorem c10_witness :
    (defaultMaskingOptions.enableMasking = true
      ∧ defaultMaskingOptions.visibleCharacters < ("abcdef" : String).length
      ∧ ("abcdef" : String).length ≤ 2 * defaultMaskingOptions.visibleCharacters)
    ∧ maskCredential "abcdef" defaultMaskingOptions = "abcdcdef" := by
  refine ⟨by decide, ?_⟩
  have h := c10_short_credentials_fully_revealed defaultMaskingOptions "abcdef"
    (by decide) (by decide) (by decide)
  rw [h.1]
  decide

/-! ### Claim C3 — permission condition maps -/

/-- C3 counterexample: the operator role's `execute sql` permission carries
the non-empty condition map `{readOnly: true}`, yet when NO conditions map
is supplied at check time the permission still matches and `hasPermission`
grants access — under the claim the subset-match (`readOnly` present with an
equal value) would have to fail and access would have to be denied.
Supplying an (even empty) conditions map does deny, showing the grant hinges
on the map's absence, not on the subset-match. -/
theorem c3_counterexample :
    matchesPermission ⟨"execute", "sql", some [("readOnly", CondValue.cbool true)]⟩
      "execute" "sql" none = true
    ∧ matchesPermission ⟨"execute", "sql", some [("readOnly", CondValue.cbool true)]⟩
      "execute" "sql" (some []) = false
    ∧ hasPermission ⟨some "u1", "s1", ["operator"], [], true, none, none, none, none⟩
      "execute" "sql" none = true := by
  refine ⟨rfl, rfl, rfl⟩

/-- C3 (amended): the subset-match over a permission's condition map is
applied only when a conditions map is supplied at check time; then a
permission with condition map `pc` matches iff action and resource match
(wildcard or equal) and every entry of `pc` appears in the supplied map
with an equal value.  When no conditions map is supplied (`none`), the
permission's condition map is ignored entirely and matching is by action
and resource alone. -/
theorem c3_condition_match_characterization :
    (∀ (p : Permission) (a r : String) (pc c : List (String × CondValue)),
      p.conditions = some pc →
      (matchesPermission p a r (some c) = true ↔
        (p.action = "*" ∨ p.action = a) ∧ (p.resource = "*" ∨ p.resource = r) ∧
        ∀ kv ∈ pc, alistLookup kv.1 c = some kv.2))
    ∧ (∀ (p : Permission) (a r : String),
      matchesPermission p a r none = true ↔
        (p.action = "*" ∨ p.action = a) ∧ (p.resource = "*" ∨ p.resource = r)) := by
  constructor
  · intro p a r pc c hpc
    obtain ⟨pa, pr, pcond⟩ := p
    simp only at hpc
    subst hpc
    by_cases h1 : pa = "*" <;> by_cases h2 : pa = a <;>
      by_cases h3 : pr = "*" <;> by_cases h4 : pr = r <;>
        simp [matchesPermission, h1, h2, h3, h4, List.all_eq_true]
  · intro p a r
    obtain ⟨pa, pr, pcond⟩ := p
    cases pcond <;>
      (by_cases h1 : pa = "*" <;> by_cases h2 : pa = a <;>
        by_cases h3 : pr = "*" <;> by_cases h4 : pr = r <;>
          simp [matchesPermission, h1, h2, h3, h4])

/-- C3 witness: the amended characterization applied to the operator's
conditioned `execute sql` permission, with the matching conditions map
supplied at check time. -/
theorem c3_witness :
    (Permission.conditions ⟨"execute", "sql", some [("readOnly", CondValue.cbool true)]⟩
      = some [("readOnly", CondValue.cbool true)])
    ∧ matchesPermission ⟨"execute", "sql", some [("readOnly", CondValue.cbool true)]⟩
      "execute" "sql" (some [("readOnly", CondValue.cbool true)]) = true := by
  refine ⟨rfl, ?_⟩
  refine (c3_condition_match_characterization.1
    ⟨"execute", "sql", some [("readOnly", CondValue.cbool true)]⟩
    "execute" "sql" [("readOnly", CondValue.cbool true)]
    [("readOnly", CondValue.cbool true)] rfl).mpr ?_
  refine ⟨Or.inr rfl, Or.inr rfl, ?_⟩
  intro kv hkv
  simp at hkv
  rw [hkv]
  rfl

/-! ### Claim C5 — validateSession -/

/-- C5: `validateSession` returns none for an unknown session id (store
untouched); for a known session that is expired or inactive it destroys the
session (the id no longer resolves afterwards) and returns none; otherwise
it sets last-accessed to now, slides expiry to `now + sessionTimeout`, and
returns the refreshed session, which replaces the stored one. -/
theorem c5_validateSession_spec :
    (∀ (cfg : AuthConfig) (now : Int) (st : SessionStore) (sid : String),
      alistLookup sid st.sessions = none →
      validateSession cfg now st sid = (none, st))
    ∧ (∀ (cfg : AuthConfig) (now : Int) (st : SessionStore) (sid : String) (s : SessionData),
      alistLookup sid st.sessions = some s →
      (s.expiresAt < now ∨ s.isActive = false) →
      validateSession cfg now st sid = (none, destroySession st sid)
        ∧ alistLookup sid (destroySession st sid).sessions = none)
    ∧ (∀ (cfg : AuthConfig) (now : Int) (st : SessionStore) (sid : String) (s : SessionData),
      alistLookup sid st.sessions = some s →
      ¬ s.expiresAt < now → s.isActive = true →
      validateSession cfg now st sid =
        (some { s with lastAccessedAt := now, expiresAt := now + cfg.sessionTimeout },
         ⟨alistSet sid { s with lastAccessedAt := now, expiresAt := now + cfg.sessionTimeout }
            st.sessions,
          st.userSessions⟩)) := by
  refine ⟨?_, ?_, ?_⟩
  · intro cfg now st sid h
    simp [validateSession, h]
  · intro cfg now st sid s h hdead
    constructor
    · rcases hdead with hdead | hdead <;> simp [validateSession, h, hdead]
    · exact alistLookup_remove_self sid st.sessions
  · intro cfg now st sid s h hexp hact
    simp [validateSession, h, hexp, hact]

/-- C5 witness: the theorem applied to a one-session store: an expired
session is destroyed and none returned; a live one is refreshed with
sliding expiry. -/
theorem c5_witness :
    (alistLookup "s1" (SessionStore.sessions
        ⟨[("s1", ⟨"s1", "u1", 0, 0, 100, none, none, true⟩)], [("u1", ["s1"])]⟩)
      = some ⟨"s1", "u1", 0, 0, 100, none, none, true⟩
     ∧ ((⟨"s1", "u1", 0, 0, 100, none, none, true⟩ : SessionData).expiresAt < (200 : Int)
        ∨ (⟨"s1", "u1", 0, 0, 100, none, none, true⟩ : SessionData).isActive = false))
    ∧ validateSession ⟨"k", 1000, 5, true, [], [], []⟩ 200
        ⟨[("s1", ⟨"s1", "u1", 0, 0, 100, none, none, true⟩)], [("u1", ["s1"])]⟩ "s1"
      = (none, destroySession
          ⟨[("s1", ⟨"s1", "u1", 0, 0, 100, none, none, true⟩)], [("u1", ["s1"])]⟩ "s1")
    ∧ validateSession ⟨"k", 1000, 5, true, [], [], []⟩ 50
        ⟨[("s1", ⟨"s1", "u1", 0, 0, 100, none, none, true⟩)], [("u1", ["s1"])]⟩ "s1"
      = (some ⟨"s1", "u1", 0, 50, 1050, none, none, true⟩,
         ⟨[("s1", ⟨"s1", "u1", 0, 50, 1050, none, none, true⟩)], [("u1", ["s1"])]⟩) := by
  refine ⟨⟨rfl, Or.inl (by decide)⟩, ?_, ?_⟩
  · exact (c5_validateSession_spec.2.1 ⟨"k", 1000, 5, true, [], [], []⟩ 200
      ⟨[("s1", ⟨"s1", "u1", 0, 0, 100, none, none, true⟩)], [("u1", ["s1"])]⟩ "s1"
      ⟨"s1", "u1", 0, 0, 100, none, none, true⟩ rfl (Or.inl (by decide))).1
  · exact c5_validateSession_spec.2.2 ⟨"k", 1000, 5, true, [], [], []⟩ 50
      ⟨[("s1", ⟨"s1", "u1", 0, 0, 100, none, none, true⟩)], [("u1", ["s1"])]⟩ "s1"
      ⟨"s1", "u1", 0, 0, 100, none, none, true⟩ rfl (by decide) rfl

/-! ### Claim C8 — extendSession ignores expiry -/

/-- C8: for a stored session whose `isActive` flag is true but whose expiry
is already in the past, `extendSession` still returns true and resets the
expiry to `now + sessionTimeout` (it checks only existence and the active
flag, never expiry), so the already-expired session is valid again for a
subsequent `validateSession` at any time up to the new expiry. -/
theorem c8_extend_revives_expired (cfg : AuthConfig) (now now2 : Int)
    (st : SessionStore) (sid : String) (s : SessionData)
    (hs : alistLookup sid st.sessions = some s)
    (hact : s.isActive = true)
    (hexp : s.expiresAt < now)
    (hnow2 : now2 ≤ now + cfg.sessionTimeout) :
    extendSession cfg now st sid =
      (true,
       ⟨alistSet sid { s with expiresAt := now + cfg.sessionTimeout, lastAccessedAt := now }
          st.sessions,
        st.userSessions⟩)
    ∧ (validateSession cfg now2
        ⟨alistSet sid { s with expiresAt := now + cfg.sessionTimeout, lastAccessedAt := now }
           st.sessions,
         st.userSessions⟩ sid).1 =
      some { s with expiresAt := now2 + cfg.sessionTimeout, lastAccessedAt := now2 } := by
  obtain ⟨a1, a2, a3, a4, a5, a6, a7, a8⟩ := s
  simp only at hact
  subst hact
  constructor
  · simp [extendSession, hs]
  · have hl := alistLookup_set_self sid
      (⟨a1, a2, a3, now, now + cfg.sessionTimeout, a6, a7, true⟩ : SessionData) st.sessions
    simp [validateSession, hl, Int.not_lt.mpr hnow2]

/-- C8 witness: the theorem applied to a session that expired at time 100,
extended at time 200 with a timeout of 1000, then validated at time 700. -/
theorem c8_witness :
    (alistLookup "s1" (SessionStore.sessions
        ⟨[("s1", ⟨"s1", "u1", 0, 0, 100, none, none, true⟩)], [("u1", ["s1"])]⟩)
      = some ⟨"s1", "u1", 0, 0, 100, none, none, true⟩
     ∧ (⟨"s1", "u1", 0, 0, 100, none, none, true⟩ : SessionData).isActive = true
     ∧ (⟨"s1", "u1", 0, 0, 100, none, none, true⟩ : SessionData).expiresAt < (200 : Int)
     ∧ (700 : Int) ≤ 200 + (⟨"k", 1000, 5, true, [], [], []⟩ : AuthConfig).sessionTimeout)
    ∧ (extendSession ⟨"k", 1000, 5, true, [], [], []⟩ 200
        ⟨[("s1", ⟨"s1", "u1", 0, 0, 100, none, none, true⟩)], [("u1", ["s1"])]⟩ "s1").1 = true
    ∧ (validateSession ⟨"k", 1000, 5, true, [], [], []⟩ 700
        ⟨[("s1", ⟨"s1", "u1", 0, 0, 1200, none, none, true⟩)], [("u1", ["s1"])]⟩ "s1").1
      = some ⟨"s1", "u1", 0, 700, 1700, none, none, true⟩ := by
  have h := c8_extend_revives_expired ⟨"k", 1000, 5, true, [], [], []⟩ 200 700
    ⟨[("s1", ⟨"s1", "u1", 0, 0, 100, none, none, true⟩)], [("u1", ["s1"])]⟩ "s1"
    ⟨"s1", "u1", 0, 0, 100, none, none, true⟩ rfl rfl (by decide) (by decide)
  refine ⟨⟨rfl, rfl, by decide, by decide⟩, ?_, ?_⟩
  · rw [h.1]
  · have h2 := h.2
    simpa using h2

/-! ### Claim C9 — absent or zero exp claim disables the expiry check -/


/-- C9: when the `exp` claim is absent or `0` (JavaScript-falsy), the expiry
comparison is skipped: `validatePayload` can never fail with
`AUTH_TOKEN_EXPIRED`, and a parsed three-segment token whose remaining
claims pass is accepted by `validateToken` at EVERY clock value `now`,
regardless of its age. -/
theorem c9_falsy_exp_never_expires :
    (∀ (cfg : AuthConfig) (now : Int) (p : JWTPayload),
      (p.exp = none ∨ p.exp = some 0) →
      ∀ e, validatePayload cfg now p = .error e → e.code ≠ "AUTH_TOKEN_EXPIRED")
    ∧ (∀ (cfg : AuthConfig) (parse : String → Option JWTPayload) (now : Int)
        (token : String) (p : JWTPayload),
      token ≠ "" → (splitOnChar '.' token.data).length = 3 → parse token = some p →
      (p.exp = none ∨ p.exp = some 0) →
      strFalsy p.sub = false → strFalsy p.aud = false → strFalsy p.iss = false →
      (numFalsy p.iat = true ∨ p.iat.getD 0 ≤ now + 60) →
      (cfg.allowedAudiences.isEmpty = true
        ∨ cfg.allowedAudiences.contains (p.aud.getD "") = true) →
      (cfg.allowedIssuers.isEmpty = true
        ∨ cfg.allowedIssuers.contains (p.iss.getD "") = true) →
      validateToken cfg parse now token = .ok p) := by
  constructor
  · intro cfg now p hexp e h
    rw [validatePayload] at h
    split_ifs at h with h1 h2 h3 h4 h5 h6 h7
    · simp only [Except.error.injEq] at h; subst h; simp
    · simp only [Except.error.injEq] at h; subst h; simp
    · simp only [Except.error.injEq] at h; subst h; simp
    · exfalso; rcases hexp with h0 | h0 <;> simp [numFalsy, h0] at h4
    · simp only [Except.error.injEq] at h; subst h; simp
    · simp only [Except.error.injEq] at h; subst h; simp
    · simp only [Except.error.injEq] at h; subst h; simp
  · intro cfg parse now token p htok hsplit hparse hexp hsub haud hiss hiat hau hai
    have g4 : (!numFalsy p.exp && decide (p.exp.getD 0 < now)) = false := by
      rcases hexp with h0 | h0 <;> simp [numFalsy, h0]
    have g5 : (!numFalsy p.iat && decide (now + 60 < p.iat.getD 0)) = false := by
      rcases hiat with h0 | h0
      · simp [h0]
      · simp [Int.not_lt.mpr h0]
    have g6 : (!cfg.allowedAudiences.isEmpty
        && !cfg.allowedAudiences.contains (p.aud.getD "")) = false := by
      rcases hau with h0 | h0
      · rw [h0]; rfl
      · rw [h0]; simp
    have g7 : (!cfg.allowedIssuers.isEmpty
        && !cfg.allowedIssuers.contains (p.iss.getD "")) = false := by
      rcases hai with h0 | h0
      · rw [h0]; rfl
      · rw [h0]; simp
    have hvp : validatePayload cfg now p = .ok () := by
      rw [validatePayload]
      split_ifs with h1 h2 h3 h4 h5 h6 h7
      · rw [hsub] at h1; exact Bool.noConfusion h1
      · rw [haud] at h2; exact Bool.noConfusion h2
      · rw [hiss] at h3; exact Bool.noConfusion h3
      · rw [g4] at h4; exact Bool.noConfusion h4
      · rw [g5] at h5; exact Bool.noConfusion h5
      · rw [g6] at h6; exact Bool.noConfusion h6
      · rw [g7] at h7; exact Bool.noConfusion h7
      · rfl
    rw [validateToken]
    simp [htok, hsplit, hparse, hvp]

/-- C9 witness: a token whose payload has `exp = 0` and valid remaining
claims is accepted with `now` far in the future. -/
theorem c9_witness :
    (("a.b.c" : String) ≠ ""
      ∧ (splitOnChar '.' ("a.b.c" : String).data).length = 3
      ∧ (zeroExpPayload.exp = none ∨ zeroExpPayload.exp = some 0))
    ∧ validateToken ⟨"k", 1000, 5, true, ["svc"], ["issuer"], []⟩
        (fun _ => some zeroExpPayload) 999999999999 "a.b.c" = .ok zeroExpPayload := by
  refine ⟨⟨by decide, by decide, Or.inr rfl⟩, ?_⟩
  exact c9_falsy_exp_never_expires.2 ⟨"k", 1000, 5, true, ["svc"], ["issuer"], []⟩
    (fun _ => some zeroExpPayload) 999999999999 "a.b.c" zeroExpPayload
    (by decide) (by decide) rfl (Or.inr rfl)
    rfl rfl rfl (Or.inl rfl) (Or.inr (by decide)) (Or.inr (by decide))

/-! ### Claim C2 — tokens with missing sub/aud/iss claims -/


/-- C2 counterexample: for a three-segment token whose payload lacks `sub`,
`validateToken` fails — but with code `AUTH_VALIDATION_FAILED` (the claim
check's `AUTH_MISSING_SUB` survives only inside the wrapped message, the
code itself is not propagated), refuting the claim that token validation
fails with the specific code `AUTH_MISSING_SUB`. -/
theorem c2_counterexample :
    validateToken ⟨"k", 1000, 5, true, ["svc"], ["issuer"], []⟩
      (fun _ => some noSubPayload) 1000 "a.b.c"
      = .error ⟨"Token validation failed: Token missing subject (sub) claim",
                "AUTH_VALIDATION_FAILED"⟩
    ∧ ("AUTH_VALIDATION_FAILED" : String) ≠ "AUTH_MISSING_SUB" := by
  exact ⟨rfl, by decide⟩

/-- C2 (amended): for every token that parses into three dot-separated
segments but whose payload lacks `sub`, `aud`, or `iss`, the payload claim
check (`validatePayload`) fails with the corresponding specific code
(`AUTH_MISSING_SUB`, `AUTH_MISSING_AUD`, `AUTH_MISSING_ISS`, in that check
order), `validateToken` surfaces this as `AUTH_VALIDATION_FAILED` wrapping
the specific message, and no session is created as a side effect: on any
`validateToken` failure `authenticateToken` propagates the error and leaves
the session store unchanged. -/
theorem c2_missing_claims :
    (∀ (cfg : AuthConfig) (now : Int) (p : JWTPayload),
      strFalsy p.sub = true →
      validatePayload cfg now p =
        .error ⟨"Token missing subject (sub) claim", "AUTH_MISSING_SUB"⟩)
    ∧ (∀ (cfg : AuthConfig) (now : Int) (p : JWTPayload),
      strFalsy p.sub = false → strFalsy p.aud = true →
      validatePayload cfg now p =
        .error ⟨"Token missing audience (aud) claim", "AUTH_MISSING_AUD"⟩)
    ∧ (∀ (cfg : AuthConfig) (now : Int) (p : JWTPayload),
      strFalsy p.sub = false → strFalsy p.aud = false → strFalsy p.iss = true →
      validatePayload cfg now p =
        .error ⟨"Token missing issuer (iss) claim", "AUTH_MISSING_ISS"⟩)
    ∧ (∀ (cfg : AuthConfig) (parse : String → Option JWTPayload) (now : Int)
        (token : String) (p : JWTPayload) (e : AuthError),
      token ≠ "" → (splitOnChar '.' token.data).length = 3 → parse token = some p →
      validatePayload cfg now p = .error e →
      validateToken cfg parse now token =
        .error ⟨"Token validation failed: " ++ e.message, "AUTH_VALIDATION_FAILED"⟩)
    ∧ (∀ (cfg : AuthConfig) (parse : String → Option JWTPayload) (now : Int)
        (newSid : String) (st : SessionStore) (token : String)
        (ua ip : Option String) (e : AuthError),
      validateToken cfg parse now token = .error e →
      authenticateToken cfg parse now newSid st token ua ip = (.error e, st)) := by
  refine ⟨?_, ?_, ?_, ?_, ?_⟩
  · intro cfg now p h
    simp [validatePayload, h]
  · intro cfg now p h1 h2
    simp [validatePayload, h1, h2]
  · intro cfg now p h1 h2 h3
    simp [validatePayload, h1, h2, h3]
  · intro cfg parse now token p e htok hsplit hparse hvp
    rw [validateToken]
    simp [htok, hsplit, hparse, hvp]
  · intro cfg parse now newSid st token ua ip e h
    simp [authenticateToken, h]

/-- C2 witness: the theorem applied to a concrete three-segment token whose
payload lacks `sub`: the claim check yields `AUTH_MISSING_SUB`, the
validator wraps it as `AUTH_VALIDATION_FAILED`, and authentication from the
empty session store leaves the store empty. -/
theorem c2_witness :
    strFalsy noSubPayload.sub = true
    ∧ validatePayload ⟨"k", 1000, 5, true, ["svc"], ["issuer"], []⟩ 1000 noSubPayload
      = .error ⟨"Token missing subject (sub) claim", "AUTH_MISSING_SUB"⟩
    ∧ validateToken ⟨"k", 1000, 5, true, ["svc"], ["issuer"], []⟩
        (fun _ => some noSubPayload) 1000 "a.b.c"
      = .error ⟨"Token validation failed: Token missing subject (sub) claim",
                "AUTH_VALIDATION_FAILED"⟩
    ∧ authenticateToken ⟨"k", 1000, 5, true, ["svc"], ["issuer"], []⟩
        (fun _ => some noSubPayload) 1000 "sid0" emptyStore "a.b.c" none none
      = (.error ⟨"Token validation failed: Token missing subject (sub) claim",
                 "AUTH_VALIDATION_FAILED"⟩, emptyStore) := by
  have h1 := c2_missing_claims.1 ⟨"k", 1000, 5, true, ["svc"], ["issuer"], []⟩ 1000
    noSubPayload rfl
  have h4 := c2_missing_claims.2.2.2.1 ⟨"k", 1000, 5, true, ["svc"], ["issuer"], []⟩
    (fun _ => some noSubPayload) 1000 "a.b.c" noSubPayload
    ⟨"Token missing subject (sub) claim", "AUTH_MISSING_SUB"⟩
    (by decide) (by decide) rfl h1
  have h5 := c2_missing_claims.2.2.2.2 ⟨"k", 1000, 5, true, ["svc"], ["issuer"], []⟩
    (fun _ => some noSubPayload) 1000 "sid0" emptyStore "a.b.c" none none
    ⟨"Token validation failed: Token missing subject (sub) claim", "AUTH_VALIDATION_FAILED"⟩
    (by exact h4)
  exact ⟨rfl, h1, by exact h4, h5⟩

/-! ### Claim C1 — operator context and apply_migration / delete_auth_user -/



/-- C1 counterexample: authenticating the end-to-end token (audience and
issuer in the allow-lists, expiry in the future, roles `["operator"]`)
yields `operatorCtx`, and `authorizeOperation(ctx, "apply_migration")` does
NOT succeed: `apply_migration` is in the hardcoded human-approval list and
the operator context lacks `admin`, so `validateToolAccess` throws
`AUTH_HUMAN_APPROVAL_REQUIRED` — even though the configured
`requireHumanApproval` list here is empty. -/
theorem c1_counterexample :
    (authenticateToken ⟨"k", 3600000, 5, true, ["svc"], ["issuer"], []⟩
      (fun _ => some operatorPayload) 1000 "sid0" emptyStore "a.b.c" none none).1
      = .ok operatorCtx
    ∧ validateToolAccess operatorCtx "apply_migration" none
      = .error ⟨"Tool apply_migration requires human approval for non-admin users",
                "AUTH_HUMAN_APPROVAL_REQUIRED"⟩ := by
  exact ⟨rfl, rfl⟩

/-- C1 (amended): for a context obtained by authenticating a token with
roles `["operator"]` (and no explicit permission strings),
`authorizeOperation(ctx, "apply_migration")` passes the permission check
(operator may write migrations) but fails with
`AUTH_HUMAN_APPROVAL_REQUIRED` because `apply_migration` is in the
hardcoded human-approval list and the context is not `admin`; and
`authorizeOperation(ctx, "delete_auth_user")` fails with
`AUTH_ACCESS_DENIED` (operator lacks `auth_users` write permission). -/
theorem c1_operator_migration_approval (ctx : AuthContext)
    (hroles : ctx.roles = ["operator"])
    (hperms : ctx.permissions = [])
    (hauth : ctx.isAuthenticated = true) :
    hasPermission ctx "write" "migrations" none = true
    ∧ requiresHumanApproval "apply_migration" ctx = true
    ∧ validateToolAccess ctx "apply_migration" none
      = .error ⟨"Tool apply_migration requires human approval for non-admin users",
                "AUTH_HUMAN_APPROVAL_REQUIRED"⟩
    ∧ validateToolAccess ctx "delete_auth_user" none
      = .error ⟨"Access denied: write on auth_users", "AUTH_ACCESS_DENIED"⟩ := by
  obtain ⟨uid, sid, roles, perms, isAuth, ta, ti, ts, te⟩ := ctx
  simp only at hroles hperms hauth
  subst hroles; subst hperms; subst hauth
  exact ⟨rfl, rfl, rfl, rfl⟩

/-- C1 witness: the amended theorem applied to the concrete operator
context obtained from the end-to-end token. -/
theorem c1_witness :
    (operatorCtx.roles = ["operator"] ∧ operatorCtx.permissions = []
      ∧ operatorCtx.isAuthenticated = true)
    ∧ validateToolAccess operatorCtx "apply_migration" none
      = .error ⟨"Tool apply_migration requires human approval for non-admin users",
                "AUTH_HUMAN_APPROVAL_REQUIRED"⟩
    ∧ validateToolAccess operatorCtx "delete_auth_user" none
      = .error ⟨"Access denied: write on auth_users", "AUTH_ACCESS_DENIED"⟩ := by
  have h := c1_operator_migration_approval operatorCtx rfl rfl rfl
  exact ⟨⟨rfl, rfl, rfl⟩, h.2.2.1, h.2.2.2⟩

/-! ### Claim C4 — the SQL content guard -/

theorem isDangerousSql_nil (q : String) (h : q.data = []) : isDangerousSql q = false := by
  rw [isDangerousSql, h]
  rfl


/-- C4 counterexample: `DROP TABLE t` has leading keyword `DROP`, not
`SELECT`, yet an `authenticated` context is denied with
`AUTH_DANGEROUS_SQL` — not `AUTH_SELECT_ONLY` as the claim states for every
non-SELECT-leading query: the destructive-pattern check fires first. -/
theorem c4_counterexample :
    isSelectQuery "DROP TABLE t" = false
    ∧ validateSqlExecution authenticatedCtx ⟨some "DROP TABLE t"⟩
      = .error ⟨"Dangerous SQL operations require admin or service_role privileges",
                "AUTH_DANGEROUS_SQL"⟩
    ∧ ("AUTH_DANGEROUS_SQL" : String) ≠ "AUTH_SELECT_ONLY" := by
  exact ⟨rfl, rfl, by decide⟩

/-- C4 (amended): in the SQL content guard, for a context whose roles
include neither `admin` nor `service_role`: every query matching one of the
fixed destructive patterns is denied with `AUTH_DANGEROUS_SQL`; every
non-empty query matching NO destructive pattern whose leading keyword after
trimming is not `SELECT` is denied with `AUTH_SELECT_ONLY` (a destructive
query is denied with `AUTH_DANGEROUS_SQL` first, even when its leading
keyword is not `SELECT`); a context with `admin` or `service_role` passes
both checks, so every non-empty query from it is accepted. -/
theorem c4_sql_content_guard :
    (∀ (ctx : AuthContext) (q : String),
      ctx.roles.contains "admin" = false → ctx.roles.contains "service_role" = false →
      isDangerousSql q = true →
      validateSqlExecution ctx ⟨some q⟩
        = .error ⟨"Dangerous SQL operations require admin or service_role privileges",
                  "AUTH_DANGEROUS_SQL"⟩)
    ∧ (∀ (ctx : AuthContext) (q : String),
      ctx.roles.contains "admin" = false → ctx.roles.contains "service_role" = false →
      isDangerousSql q = false → isSelectQuery q = false → ¬ q.length = 0 →
      validateSqlExecution ctx ⟨some q⟩
        = .error ⟨"Non-admin users can only execute SELECT statements", "AUTH_SELECT_ONLY"⟩)
    ∧ (∀ (ctx : AuthContext) (q : String),
      (ctx.roles.contains "admin" = true ∨ ctx.roles.contains "service_role" = true) →
      ¬ q.length = 0 →
      validateSqlExecution ctx ⟨some q⟩ = .ok ()) := by
  refine ⟨?_, ?_, ?_⟩
  · intro ctx q hA hS hD
    have hq : ¬ q.length = 0 := by
      intro h0
      have hnil : q.data = [] := List.eq_nil_of_length_eq_zero h0
      rw [isDangerousSql_nil q hnil] at hD
      exact Bool.noConfusion hD
    have hA' : "admin" ∉ ctx.roles := by simpa using hA
    have hS' : "service_role" ∉ ctx.roles := by simpa using hS
    simp [validateSqlExecution, hq, hD, hA', hS']
  · intro ctx q hA hS hD hSel hq
    have hA' : "admin" ∉ ctx.roles := by simpa using hA
    have hS' : "service_role" ∉ ctx.roles := by simpa using hS
    simp [validateSqlExecution, hq, hD, hA', hS', hSel]
  · intro ctx q hpriv hq
    rcases hpriv with h | h
    · have h' : "admin" ∈ ctx.roles := by simpa using h
      simp [validateSqlExecution, hq, h']
    · have h' : "service_role" ∈ ctx.roles := by simpa using h
      simp [validateSqlExecution, hq, h']

/-- C4 witness: the theorem applied to concrete queries — a destructive
statement and a non-SELECT statement from `authenticated` are denied with
their respective codes, and the destructive statement from `admin` is
accepted. -/
theorem c4_witness :
    (authenticatedCtx.roles.contains "admin" = false
      ∧ authenticatedCtx.roles.contains "service_role" = false
      ∧ isDangerousSql "DROP TABLE t" = true
      ∧ isDangerousSql "INSERT INTO t VALUES (1)" = false
      ∧ isSelectQuery "INSERT INTO t VALUES (1)" = false)
    ∧ validateSqlExecution authenticatedCtx ⟨some "DROP TABLE t"⟩
      = .error ⟨"Dangerous SQL operations require admin or service_role privileges",
                "AUTH_DANGEROUS_SQL"⟩
    ∧ validateSqlExecution authenticatedCtx ⟨some "INSERT INTO t VALUES (1)"⟩
      = .error ⟨"Non-admin users can only execute SELECT statements", "AUTH_SELECT_ONLY"⟩
    ∧ validateSqlExecution ⟨none, "s2", ["admin"], [], true, none, none, none, none⟩
        ⟨some "DROP TABLE t"⟩ = .ok () := by
  refine ⟨⟨rfl, rfl, by decide, by decide, by decide⟩, ?_, ?_, ?_⟩
  · exact c4_sql_content_guard.1 authenticatedCtx "DROP TABLE t" rfl rfl (by decide)
  · exact c4_sql_content_guard.2.1 authenticatedCtx "INSERT INTO t VALUES (1)" rfl rfl
      (by decide) (by decide) (by decide)
  · exact c4_sql_content_guard.2.2 ⟨none, "s2", ["admin"], [], true, none, none, none, none⟩
      "DROP TABLE t" (Or.inl rfl) (by decide)

/-! ### Claim C6 — the concurrent-session cap -/


theorem mem_setAdd (x : String) (l : List String) : x ∈ setAdd x l := by
  rw [setAdd]
  by_cases h : l.contains x
  · rw [if_pos h]
    exact List.mem_of_elem_eq_true h
  · rw [if_neg h]
    exact List.mem_append.mpr (Or.inr (List.mem_singleton.mpr rfl))

theorem createMany_append (cfg : AuthConfig) (now : Int) (userId : String)
    (l₁ l₂ : List String) (st : SessionStore) :
    createMany cfg now userId (l₁ ++ l₂) st =
      match createMany cfg now userId l₁ st with
      | .ok st' => createMany cfg now userId l₂ st'
      | .error e => .error e := by
  induction l₁ generalizing st with
  | nil => rfl
  | cons sid rest ih =>
    simp only [List.cons_append, createMany]
    cases h : createSession cfg now sid st userId none none with
    | error e => simp
    | ok p =>
      obtain ⟨sd, st'⟩ := p
      simpa using ih st'

theorem createMany_grows (cfg : AuthConfig) (now : Int) (userId : String) :
    ∀ (sids : List String) (st : SessionStore) (ids : List String),
      (alistLookup userId st.userSessions).getD [] = ids →
      (ids ++ sids).Nodup →
      ids.length + sids.length ≤ cfg.maxConcurrentSessions →
      ∃ st', createMany cfg now userId sids st = .ok st'
        ∧ (alistLookup userId st'.userSessions).getD [] = ids ++ sids := by
  intro sids
  induction sids with
  | nil =>
    intro st ids hids _ _
    exact ⟨st, rfl, by simpa using hids⟩
  | cons sid rest ih =>
    intro st ids hids hnd hlen
    have hlt : ids.length < cfg.maxConcurrentSessions := by
      simp only [List.length_cons] at hlen
      omega
    have hcs : createSession cfg now sid st userId none none =
        .ok (⟨sid, userId, now, now, now + cfg.sessionTimeout, none, none, true⟩,
             ⟨alistSet sid ⟨sid, userId, now, now, now + cfg.sessionTimeout, none, none, true⟩
                st.sessions,
              alistSet userId (setAdd sid ids) st.userSessions⟩) := by
      rw [createSession, hids, if_neg (Nat.not_le.mpr hlt)]
    have hnotmem : sid ∉ ids := by
      intro hmem
      exact (List.disjoint_of_nodup_append hnd) hmem (List.mem_cons_self sid rest)
    have hadd : setAdd sid ids = ids ++ [sid] := by
      rw [setAdd, if_neg]
      intro hc
      exact hnotmem (List.mem_of_elem_eq_true hc)
    have hids' : (alistLookup userId
        (alistSet userId (setAdd sid ids) st.userSessions)).getD [] = ids ++ [sid] := by
      rw [alistLookup_set_self, hadd]
      rfl
    have hnd' : ((ids ++ [sid]) ++ rest).Nodup := by
      rw [List.append_assoc]
      simpa using hnd
    have hlen' : (ids ++ [sid]).length + rest.length ≤ cfg.maxConcurrentSessions := by
      simp only [List.length_append, List.length_singleton, List.length_cons,
        List.length_nil] at hlen ⊢
      omega
    obtain ⟨st', hok, hfinal⟩ := ih
      ⟨alistSet sid ⟨sid, userId, now, now, now + cfg.sessionTimeout, none, none, true⟩
          st.sessions,
        alistSet userId (setAdd sid ids) st.userSessions⟩
      (ids ++ [sid]) hids' hnd' hlen'
    refine ⟨st', ?_, ?_⟩
    · simp only [createMany, hcs]
      exact hok
    · rw [hfinal, List.append_assoc]
      rfl

/-- C6: session creation fails with `SESSION_LIMIT_EXCEEDED` exactly when
the caller's session index already holds `maxConcurrentSessions` ids (the
code's cap test; in every reachable store the user's active sessions are
indexed there); on success the new session has creation and last-access set
to now, expiry `now + sessionTimeout`, and is stored and indexed under its
owner; and creating `maxConcurrentSessions + 1` sessions for one user with
fresh distinct ids, starting from no sessions and destroying none, makes
the (N+1)-th attempt raise `SESSION_LIMIT_EXCEEDED`. -/
theorem c6_session_cap :
    (∀ (cfg : AuthConfig) (now : Int) (sid : String) (st : SessionStore)
        (userId : String) (ua ip : Option String),
      cfg.maxConcurrentSessions ≤ ((alistLookup userId st.userSessions).getD []).length →
      createSession cfg now sid st userId ua ip
        = .error ⟨sessionLimitMessage cfg, "SESSION_LIMIT_EXCEEDED"⟩)
    ∧ (∀ (cfg : AuthConfig) (now : Int) (sid : String) (st : SessionStore)
        (userId : String) (ua ip : Option String),
      ((alistLookup userId st.userSessions).getD []).length < cfg.maxConcurrentSessions →
      ∃ st', createSession cfg now sid st userId ua ip
          = .ok (⟨sid, userId, now, now, now + cfg.sessionTimeout, ua, ip, true⟩, st')
        ∧ alistLookup sid st'.sessions
            = some ⟨sid, userId, now, now, now + cfg.sessionTimeout, ua, ip, true⟩
        ∧ sid ∈ (alistLookup userId st'.userSessions).getD [])
    ∧ (∀ (cfg : AuthConfig) (now : Int) (userId : String) (sids : List String)
        (st : SessionStore),
      alistLookup userId st.userSessions = none →
      sids.Nodup →
      sids.length = cfg.maxConcurrentSessions + 1 →
      createMany cfg now userId sids st
        = .error ⟨sessionLimitMessage cfg, "SESSION_LIMIT_EXCEEDED"⟩) := by
  refine ⟨?_, ?_, ?_⟩
  · intro cfg now sid st userId ua ip h
    rw [createSession, if_pos h]
  · intro cfg now sid st userId ua ip h
    refine ⟨⟨alistSet sid ⟨sid, userId, now, now, now + cfg.sessionTimeout, ua, ip, true⟩
        st.sessions,
      alistSet userId (setAdd sid ((alistLookup userId st.userSessions).getD []))
        st.userSessions⟩, ?_, ?_, ?_⟩
    · rw [createSession, if_neg (Nat.not_le.mpr h)]
    · exact alistLookup_set_self _ _ _
    · rw [alistLookup_set_self]
      exact mem_setAdd _ _
  · intro cfg now userId sids st hnone hnd hlen
    have hids0 : (alistLookup userId st.userSessions).getD [] = [] := by
      rw [hnone]; rfl
    have hnd1 : (([] : List String) ++ sids.take cfg.maxConcurrentSessions).Nodup := by
      simp only [List.nil_append]
      exact List.Nodup.sublist (List.take_sublist _ _) hnd
    have hlen1 : ([] : List String).length + (sids.take cfg.maxConcurrentSessions).length
        ≤ cfg.maxConcurrentSessions := by
      simp [List.length_take, hlen]
    obtain ⟨st', hok, hfull⟩ := createMany_grows cfg now userId
      (sids.take cfg.maxConcurrentSessions) st [] hids0 hnd1 hlen1
    have hfl : ((alistLookup userId st'.userSessions).getD []).length
        = cfg.maxConcurrentSessions := by
      rw [hfull]
      simp [List.length_take, hlen]
    obtain ⟨d, hd⟩ : ∃ d, sids.drop cfg.maxConcurrentSessions = [d] := by
      have hdlen : (sids.drop cfg.maxConcurrentSessions).length = 1 := by
        simp [List.length_drop, hlen]
      exact List.length_eq_one.mp hdlen
    have hsplit : sids = sids.take cfg.maxConcurrentSessions
        ++ sids.drop cfg.maxConcurrentSessions := (List.take_append_drop _ _).symm
    conv_lhs => rw [hsplit]
    rw [createMany_append, hok, hd]
    show createMany cfg now userId [d] st' = _
    have hfail : createSession cfg now d st' userId none none
        = .error ⟨sessionLimitMessage cfg, "SESSION_LIMIT_EXCEEDED"⟩ := by
      rw [createSession, if_pos (Nat.le_of_eq hfl.symm)]
    simp only [createMany, hfail]

/-- C6 witness: with a cap of 2, creating three sessions with fresh ids for
the same user from an empty store fails on the third with
`SESSION_LIMIT_EXCEEDED`. -/
theorem c6_witness :
    (alistLookup "u1" emptyStore.userSessions = none
      ∧ (["a", "b", "c"] : List String).Nodup
      ∧ (["a", "b", "c"] : List String).length
          = (⟨"k", 1000, 2, true, [], [], []⟩ : AuthConfig).maxConcurrentSessions + 1)
    ∧ createMany ⟨"k", 1000, 2, true, [], [], []⟩ 0 "u1" ["a", "b", "c"] emptyStore
      = .error ⟨sessionLimitMessage ⟨"k", 1000, 2, true, [], [], []⟩,
                "SESSION_LIMIT_EXCEEDED"⟩ := by
  refine ⟨⟨rfl, by decide, rfl⟩, ?_⟩
  exact c6_session_cap.2.2 ⟨"k", 1000, 2, true, [], [], []⟩ 0 "u1" ["a", "b", "c"]
    emptyStore rfl (by decide) rfl

/-! ### Claim C7 — audit detail sanitization -/

theorem addEvent_concat (st : AuditLogger) (e : AuditEvent) (h : 0 < st.maxEvents) :
    ∃ pre, (addEvent st e).events = pre ++ [e] := by
  rw [addEvent]
  by_cases hc : st.maxEvents < (st.events ++ [e]).length
  · rw [if_pos hc]
    refine ⟨st.events.drop ((st.events ++ [e]).length - st.maxEvents), ?_⟩
    simp only [List.drop_append_eq_append_drop]
    have h0 : (st.events ++ [e]).length - st.maxEvents - st.events.length = 0 := by
      simp only [List.length_append, List.length_singleton]
      omega
    rw [h0]
    rfl
  · rw [if_neg hc]
    exact ⟨st.events, rfl⟩

theorem addEvent_getLast (st : AuditLogger) (e : AuditEvent) (h : 0 < st.maxEvents) :
    (addEvent st e).events.getLast? = some e := by
  obtain ⟨pre, hp⟩ := addEvent_concat st e h
  rw [hp]
  exact List.getLast?_concat _

/-- C7 counterexample: logging a detail map whose key `password` carries the
NON-string value `12345` stores the value unchanged — the key matches the
sensitivity heuristic yet its value is not replaced by a redaction marker,
so the stored detail map can carry raw secret material of non-string type. -/
theorem c7_counterexample :
    (logAuthEvent ⟨[], 10000, true⟩ "e1" 5 "login" AuditOutcome.failure none
        (some [("password", DetailValue.vnum 12345)]) none none).events
      = [⟨"e1", 5, none, none, "login", "authentication", AuditOutcome.failure,
          some [("password", DetailValue.vnum 12345)], none, none⟩]
    ∧ isSensitiveKey "password" = true := by
  exact ⟨rfl, rfl⟩

/-- C7 (amended): for every detail map passed to any audit append method,
every entry whose key matches a case-insensitive substring of
{password, secret, key, token, credential} AND whose value is a string has
its value replaced by `[REDACTED:<original length>chars]` before storage
(non-string values are stored unchanged); consequently every string stored
under a sensitive key is a redaction marker; each of the four append
methods stores exactly the sanitized map (when logging is enabled and the
capacity is positive); e.g. key `password` with value `"hunter2"` is stored
as `[REDACTED:7chars]`. -/
theorem c7_sanitization :
    (∀ (d : List (String × DetailValue)) (k s : String),
      isSensitiveKey k = true → (k, DetailValue.vstr s) ∈ d →
      (k, DetailValue.vstr (redactionMarker s.length)) ∈ d.map sanitizeEntry)
    ∧ (∀ (d : List (String × DetailValue)) (k s : String),
      isSensitiveKey k = true → (k, DetailValue.vstr s) ∈ d.map sanitizeEntry →
      ∃ n, s = redactionMarker n)
    ∧ (∀ (st : AuditLogger) (eid : String) (now : Int) (action : String)
        (outcome : AuditOutcome) (ctx : Option AuthContext)
        (d : Option (List (String × DetailValue))) (ip ua : Option String),
      st.enabled = true → 0 < st.maxEvents →
      ∃ ev, (logAuthEvent st eid now action outcome ctx d ip ua).events.getLast? = some ev
        ∧ ev.details = sanitizeDetails d)
    ∧ (∀ (st : AuditLogger) (eid : String) (now : Int) (action resource : String)
        (outcome : AuditOutcome) (ctx : AuthContext)
        (d : Option (List (String × DetailValue))) (ip ua : Option String),
      st.enabled = true → 0 < st.maxEvents →
      ∃ ev, (logAuthzEvent st eid now action resource outcome ctx d ip ua).events.getLast?
          = some ev
        ∧ ev.details = sanitizeDetails d)
    ∧ (∀ (st : AuditLogger) (eid : String) (now : Int) (toolName : String)
        (outcome : AuditOutcome) (ctx : AuthContext)
        (d : Option (List (String × DetailValue))) (ip ua : Option String),
      st.enabled = true → 0 < st.maxEvents →
      ∃ ev, (logToolEvent st eid now toolName outcome ctx d ip ua).events.getLast? = some ev
        ∧ ev.details = sanitizeDetails d)
    ∧ (∀ (st : AuditLogger) (eid : String) (now : Int) (action : String)
        (outcome : AuditOutcome) (sessionId : String) (userId : Option String)
        (d : Option (List (String × DetailValue))) (ip ua : Option String),
      st.enabled = true → 0 < st.maxEvents →
      ∃ ev, (logSessionEvent st eid now action outcome sessionId userId d ip ua).events.getLast?
          = some ev
        ∧ ev.details = sanitizeDetails d)
    ∧ sanitizeEntry ("password", DetailValue.vstr "hunter2")
        = ("password", DetailValue.vstr "[REDACTED:7chars]") := by
  refine ⟨?_, ?_, ?_, ?_, ?_, ?_, rfl⟩
  · intro d k s hk hm
    have hs : sanitizeEntry (k, DetailValue.vstr s)
        = (k, DetailValue.vstr (redactionMarker s.length)) := by
      simp [sanitizeEntry, hk]
    rw [← hs]
    exact List.mem_map_of_mem _ hm
  · intro d k s hk hm
    rcases List.mem_map.mp hm with ⟨⟨k', v⟩, hmem, hemap⟩
    cases v with
    | vstr t =>
      by_cases hk' : isSensitiveKey k'
      · simp only [sanitizeEntry, if_pos hk', Prod.mk.injEq, DetailValue.vstr.injEq] at hemap
        exact ⟨t.length, hemap.2.symm⟩
      · simp only [sanitizeEntry, if_neg hk', Prod.mk.injEq] at hemap
        obtain ⟨hk2, _⟩ := hemap
        subst hk2
        exact absurd hk hk'
    | vnum n => simp [sanitizeEntry] at hemap
    | vbool b => simp [sanitizeEntry] at hemap
  · intro st eid now action outcome ctx d ip ua hen hmax
    rw [logAuthEvent, hen]
    exact ⟨_, addEvent_getLast st _ hmax, rfl⟩
  · intro st eid now action resource outcome ctx d ip ua hen hmax
    rw [logAuthzEvent, hen]
    exact ⟨_, addEvent_getLast st _ hmax, rfl⟩
  · intro st eid now toolName outcome ctx d ip ua hen hmax
    rw [logToolEvent, hen]
    exact ⟨_, addEvent_getLast st _ hmax, rfl⟩
  · intro st eid now action outcome sessionId userId d ip ua hen hmax
    rw [logSessionEvent, hen]
    exact ⟨_, addEvent_getLast st _ hmax, rfl⟩

/-- C7 witness: the theorem applied to the map `{password: "hunter2"}`: the
sanitized map carries the marker of length 7, and the logged event stores
exactly the sanitized map. -/
theorem c7_witness :
    (isSensitiveKey "password" = true
      ∧ ("password", DetailValue.vstr "hunter2")
          ∈ [("password", DetailValue.vstr "hunter2")]
      ∧ (⟨[], 10000, true⟩ : AuditLogger).enabled = true
      ∧ 0 < (⟨[], 10000, true⟩ : AuditLogger).maxEvents)
    ∧ ("password", DetailValue.vstr (redactionMarker 7))
        ∈ [("password", DetailValue.vstr "hunter2")].map sanitizeEntry
    ∧ ∃ ev, (logAuthEvent ⟨[], 10000, true⟩ "e1" 5 "login" AuditOutcome.success none
          (some [("password", DetailValue.vstr "hunter2")]) none none).events.getLast?
        = some ev
      ∧ ev.details = sanitizeDetails (some [("password", DetailValue.vstr "hunter2")]) := by
  refine ⟨⟨rfl, by simp, rfl, by decide⟩, ?_, ?_⟩
  · exact c7_sanitization.1 [("password", DetailValue.vstr "hunter2")] "password" "hunter2"
      rfl (by simp)
  · exact c7_sanitization.2.2.1 ⟨[], 10000, true⟩ "e1" 5 "login" AuditOutcome.success none
      (some [("password", DetailValue.vstr "hunter2")]) none none rfl (by decide)
